import Mathlib

/-!
Verification development for the fathom-linear-integration repository.

This file gives a shallow embedding, in Lean 4, of the approval-state
coordination subsystem of the repository:

* `src/utils/retry.ts` — the generic retry-with-exponential-backoff helper
  (`retry`, `RetryOptions`, `DEFAULT_OPTIONS`);
* `src/services/linear/client.ts` — `LinearIssueCreator.createIssue` (one
  issue, retried) and `LinearIssueCreator.createIssues` (sequential batch,
  per-item failures swallowed);
* `src/services/slack/reviewer.ts` — the `approve_issues` / `reject_issues`
  action handlers, the KV lookup helper `getReviewKV`, and the pure
  message-rendering helpers (`truncateDescription`, `getPriorityLabel`,
  `createReviewBlocks` item sections).

Modelling conventions: TypeScript promises that either resolve or throw are
embedded as `Except`-valued functions; the external Linear API is an oracle
`backend : Nat → Nat → Except JsError (Option String)` giving, for payload
index `i` and attempt number `n` (1-based), either a thrown error or the
resolved issue payload (`none` models a payload whose `issue` field is null);
`setTimeout` sleeps are recorded in a trace rather than performed; the
Vercel KV store is an association list from review ids to records, and a
store read that may throw is an `Except` value.  Each embedded definition
mirrors the control flow of the cited source function; instrumentation
fields (call counts, sleep lists, per-item traces) record events the
TypeScript code performs but does not return.
-/

set_option maxRecDepth 4000

deriving instance DecidableEq for Except

/-- A thrown JavaScript error as the retry classifiers see it: its `message`
string, its optional `code` property, and the optional `response.status` of
an HTTP error (`none` when `error.response` is absent). -/
structure JsError where
  message : String
  code : Option String
  responseStatus : Option Nat
deriving DecidableEq

/-- Boolean test that `pat` occurs at the start of `l` (character-wise). -/
def strStartsWith : List Char → List Char → Bool
  | [], _ => true
  | _ :: _, [] => false
  | p :: ps, c :: cs => p == c && strStartsWith ps cs

/-- Boolean test that `pat` occurs contiguously somewhere in `l`. -/
def strFindSub (pat : List Char) : List Char → Bool
  | [] => pat.isEmpty
  | c :: cs => strStartsWith pat (c :: cs) || strFindSub pat cs

/-- JavaScript `s.includes(pat)`: substring containment on strings. -/
def strIncludes (s pat : String) : Bool :=
  strFindSub pat.data s.data

/-- The default retryable-error classifier of `src/utils/retry.ts`
(`DEFAULT_OPTIONS.retryableErrors`, lines 19-25): network reset / timeout
codes, server-side `response.status >= 500`, or a message containing
`timeout`. -/
def defaultRetryable (error : JsError) : Bool :=
  if error.code == some "ECONNRESET" || error.code == some "ETIMEDOUT" then true
  else if (match error.responseStatus with
           | some s => decide (500 ≤ s)
           | none => false) then true
  else if strIncludes error.message "timeout" then true
  else false

/-- The retryable-error classifier passed by
`LinearIssueCreator.createIssue` (`src/services/linear/client.ts`,
lines 33-41).  It overrides the default classifier and tests only message
substrings; despite the source comment "Retry on network errors, timeouts,
and 5xx errors", it never inspects `response.status`. -/
def clientRetryable (error : JsError) : Bool :=
  if strIncludes error.message "Fetch failed" then true
  else if strIncludes error.message "ECONNRESET" || strIncludes error.message "ETIMEDOUT" then true
  else if strIncludes error.message "socket disconnected" then true
  else if strIncludes error.message "timeout" then true
  else false

/-- `RetryOptions` of `src/utils/retry.ts` with the defaults already merged
in (the TypeScript `{ ...DEFAULT_OPTIONS, ...options }` spread). -/
structure RetryOptions where
  maxAttempts : Nat
  initialDelayMs : Nat
  maxDelayMs : Nat
  backoffMultiplier : Nat
  retryableErrors : JsError → Bool

/-- `DEFAULT_OPTIONS` of `src/utils/retry.ts`, lines 14-26. -/
def defaultOptions : RetryOptions :=
  ⟨3, 1000, 10000, 2, defaultRetryable⟩

/-- The options `createIssue` passes to `retry`
(`src/services/linear/client.ts`, lines 29-42): `maxAttempts: 3`,
`initialDelayMs: 1000`, `maxDelayMs: 5000`, the message-substring
classifier, and the default backoff multiplier 2. -/
def clientRetryOptions : RetryOptions :=
  ⟨3, 1000, 5000, 2, clientRetryable⟩

/-- Result of one `retry(fn, opts)` run: the value returned or the error
finally thrown (`Except.error none` is the degenerate `throw lastError` with
`lastError` still undefined, reachable only when `maxAttempts = 0`),
together with the number of invocations of `fn` and the list of performed
`sleep` durations, in order. -/
structure RetryResult (α : Type) where
  outcome : Except (Option JsError) α
  calls : Nat
  sleeps : List Nat
deriving DecidableEq

/-- The loop body of `retry` (`src/utils/retry.ts`, lines 51-91).
`attempt` is the 1-based attempt counter, `remaining` the number of loop
iterations left (`maxAttempts - attempt + 1`), `delay` the current backoff
delay, `lastError` the last caught error.  On a caught error the classifier
decides between an immediate rethrow and (unless this was the last attempt)
a recorded sleep followed by the next attempt with the delay doubled and
capped at `maxDelay`. -/
def retryAux (fn : Nat → Except JsError α) (isRetryable : JsError → Bool)
    (mult maxDelay : Nat) : Nat → Nat → Nat → Option JsError → RetryResult α
  | _, 0, _, lastError => ⟨Except.error lastError, 0, []⟩
  | attempt, r + 1, delay, _ =>
    match fn attempt with
    | Except.ok v => ⟨Except.ok v, 1, []⟩
    | Except.error e =>
      if isRetryable e then
        if r = 0 then
          ⟨Except.error (some e), 1, []⟩
        else
          let rest :=
            retryAux fn isRetryable mult maxDelay (attempt + 1) r
              (min (delay * mult) maxDelay) (some e)
          ⟨rest.outcome, rest.calls + 1, delay :: rest.sleeps⟩
      else ⟨Except.error (some e), 1, []⟩

/-- `retry(fn, opts)` of `src/utils/retry.ts`: run the attempt loop from
attempt 1 with the configured bound and initial delay. -/
def retryRun (fn : Nat → Except JsError α) (opts : RetryOptions) : RetryResult α :=
  retryAux fn opts.retryableErrors opts.backoffMultiplier opts.maxDelayMs
    1 opts.maxAttempts opts.initialDelayMs none

/-- The sleep-duration sequence produced by `n` consecutive retried
failures: the current delay, then the sequence continued with the delay
multiplied by `mult` and capped at `maxDelay`. -/
def backoffSleeps (mult maxDelay : Nat) : Nat → Nat → List Nat
  | _, 0 => []
  | delay, n + 1 => delay :: backoffSleeps mult maxDelay (min (delay * mult) maxDelay) n

/-- `LinearIssueInput` (`src/types/linear.ts`), the issue-creation payload:
title, description, team, and the optional routing fields.  `stateId` is the
workflow-state field the client forwards to the Linear SDK. -/
structure LinearIssueInput where
  title : String
  description : String
  teamId : String
  projectId : Option String
  assigneeId : Option String
  priority : Option Nat
  labelIds : Option (List String)
  dueDate : Option String
  stateId : Option String
deriving DecidableEq

/-- The error thrown by `createIssue` when the resolved payload carries no
issue (`src/services/linear/client.ts`, line 48). -/
def noIssueError : JsError :=
  ⟨"Failed to create issue: no issue returned", none, none⟩

/-- Result of one `LinearIssueCreator.createIssue` call: the issue id
returned or the error thrown, plus the backend call count and sleep trace
of the inner `retry`. -/
structure CreateOneResult where
  outcome : Except (Option JsError) String
  calls : Nat
  sleeps : List Nat
deriving DecidableEq

/-- `LinearIssueCreator.createIssue` (`src/services/linear/client.ts`,
lines 13-57): wrap the tracker call in `retry` with `clientRetryOptions`;
after a successful resolution, a null `issue` field becomes a thrown
`noIssueError`; errors surviving retry are rethrown to the caller.
`backend n` is the tracker's response to the n-th attempt. -/
def createIssueRun (backend : Nat → Except JsError (Option String)) : CreateOneResult :=
  let r := retryRun backend clientRetryOptions
  match r.outcome with
  | Except.ok (some id) => ⟨Except.ok id, r.calls, r.sleeps⟩
  | Except.ok none => ⟨Except.error (some noIssueError), r.calls, r.sleeps⟩
  | Except.error e => ⟨Except.error e, r.calls, r.sleeps⟩

/-- Caller-visible and traced outcome of `LinearIssueCreator.createIssues`:
the TypeScript function RETURNS only `issueIds`; `perItemTrace` is
instrumentation recording each `createIssue` invocation (one entry per
input payload, in order) that the source merely logs. -/
structure CreateBatchResult where
  issueIds : List String
  perItemTrace : List CreateOneResult
deriving DecidableEq

/-- The sequential loop of `LinearIssueCreator.createIssues`
(`src/services/linear/client.ts`, lines 59-77), started at payload index
`idx`: each payload's `createIssue` failure is caught and only logged, and
the loop continues with the remaining payloads; successes are accumulated
in order.  `backend i n` is the tracker's response to attempt `n` on
payload `i`. -/
def createIssuesAux (backend : Nat → Nat → Except JsError (Option String)) :
    Nat → List LinearIssueInput → CreateBatchResult
  | _, [] => ⟨[], []⟩
  | idx, _input :: rest =>
    let one := createIssueRun (backend idx)
    let restR := createIssuesAux backend (idx + 1) rest
    match one.outcome with
    | Except.ok id => ⟨id :: restR.issueIds, one :: restR.perItemTrace⟩
    | Except.error _ => ⟨restR.issueIds, one :: restR.perItemTrace⟩

/-- `LinearIssueCreator.createIssues(inputs)`: the sequential batch loop
from index 0.  It never throws: every per-item error is caught inside the
loop. -/
def createIssuesRun (backend : Nat → Nat → Except JsError (Option String))
    (inputs : List LinearIssueInput) : CreateBatchResult :=
  createIssuesAux backend 0 inputs

/-- Total number of tracker create calls a batch run performed. -/
def batchCalls (b : CreateBatchResult) : Nat :=
  (b.perItemTrace.map (fun t => t.calls)).sum

/-- `ActionItem` (`src/types/action-item.ts`): the human-readable action
item extracted from a transcript (the `metadata` sub-record is omitted; the
review handlers never read it). -/
structure ActionItem where
  title : String
  description : String
  assignee : Option String
  priority : String
  dueDate : Option String
deriving DecidableEq

/-- `ReviewRequestData` (`src/services/slack/reviewer.ts`, lines 9-15): the
record persisted per review id — the extracted items, the index-aligned
Linear payloads, the creation timestamp, and the optional reference
(channel id plus message timestamp) of the posted review message. -/
structure ReviewRequestData where
  actionItems : List ActionItem
  linearIssues : List LinearIssueInput
  timestamp : Nat
  messageTs : Option String
  channelId : Option String
deriving DecidableEq

/-- The distinct `respond` texts the two action handlers can send
(`src/services/slack/reviewer.ts`, lines 95-202), one constructor per
source string; `approvedCreated n` carries the issue count interpolated
into the approval text. -/
inductive RespondText
  | inMemoryUnavailable
  | reviewNotFoundOrExpired
  | approvedCreated (n : Nat)
  | errorCreatingIssues
  | linearNotConfigured
  | errorProcessingApproval
  | issueCreationCancelled
  | errorProcessingRejection
deriving DecidableEq

/-- The literal message text of each `respond` call, exactly as in the
source. -/
def RespondText.text : RespondText → String
  | inMemoryUnavailable => "❌ In-memory storage not available. Use KV for serverless deployment."
  | reviewNotFoundOrExpired => "❌ Review not found or expired."
  | approvedCreated n => "✅ Approved! Created " ++ toString n ++ " issue(s) in Linear..."
  | errorCreatingIssues => "❌ Error creating issues in Linear. Please try again."
  | linearNotConfigured => "❌ Linear creator not configured."
  | errorProcessingApproval => "❌ Error processing approval. Please try again."
  | issueCreationCancelled => "❌ Issue creation cancelled."
  | errorProcessingRejection => "❌ Error processing rejection. Please try again."

/-- Outcome taxonomy of the specification (spec §7): the vocabulary the
spec uses for `handleAction` results.  This type follows the SPEC's words,
not the source; `classify` below maps the source's actual respond texts
onto it so that spec-level claims about outcomes can be stated and
compared with the code's behaviour. -/
inductive SpecOutcome
  | success
  | alreadyProcessed
  | notFound
  | approvalFailed
  | misconfigured
  | unexpectedError
deriving DecidableEq

/-- Map each respond text of the source onto the spec's outcome taxonomy.
No respond text maps to `alreadyProcessed`: the source has no such
response. -/
def classify : RespondText → SpecOutcome
  | RespondText.approvedCreated _ => SpecOutcome.success
  | RespondText.issueCreationCancelled => SpecOutcome.success
  | RespondText.reviewNotFoundOrExpired => SpecOutcome.notFound
  | RespondText.errorCreatingIssues => SpecOutcome.approvalFailed
  | RespondText.inMemoryUnavailable => SpecOutcome.misconfigured
  | RespondText.linearNotConfigured => SpecOutcome.misconfigured
  | RespondText.errorProcessingApproval => SpecOutcome.unexpectedError
  | RespondText.errorProcessingRejection => SpecOutcome.unexpectedError

/-- One `chat.update` call on the original review message: target channel,
message timestamp, and the new fallback text. -/
structure MsgUpdate where
  channel : String
  ts : String
  text : String
deriving DecidableEq

/-- Observable effect of one action-handler invocation: the `respond`
texts sent (in order), the `createIssues` run if one happened, the
`chat.update` attempted on the original message if any, and whether
`deleteReviewKV` was invoked for the review's key. -/
structure HandlerResult where
  responds : List RespondText
  batch : Option CreateBatchResult
  msgUpdate : Option MsgUpdate
  deleted : Bool
deriving DecidableEq

/-- Failure mode of one durable-store read: the `kv.get` call threw
(connectivity), or the stored string failed `JSON.parse`. -/
inductive StoreReadError
  | connectivity
  | parse
deriving DecidableEq

/-- `SlackReviewer.getReviewKV` (`src/services/slack/reviewer.ts`,
lines 70-81): returns null when KV is disabled; otherwise the read result,
with a missing key, a thrown `kv.get`, or a `JSON.parse` failure all
collapsed to null (the catch block returns null). -/
def getReviewKV (useKV : Bool)
    (readResult : Except StoreReadError (Option ReviewRequestData)) :
    Option ReviewRequestData :=
  if useKV = false then none
  else
    match readResult with
    | Except.error _ => none
    | Except.ok d => d

/-- The `approve_issues` action handler (`src/services/slack/reviewer.ts`,
lines 95-158).  With KV disabled it responds that in-memory storage is
unavailable and stops before any lookup.  A failed lookup responds
"Review not found or expired".  Otherwise, with a Linear creator
configured, it runs `createIssues` on ALL stored payloads (that call never
throws — each per-item failure is caught inside it), responds "Approved!
Created N issue(s)" with N the STORED payload count, attempts the
original-message update when the message reference is present, and deletes
the review record. -/
def handleApprove (useKV hasCreator : Bool)
    (backend : Nat → Nat → Except JsError (Option String))
    (readResult : Except StoreReadError (Option ReviewRequestData)) :
    HandlerResult :=
  if useKV = false then
    ⟨[RespondText.inMemoryUnavailable], none, none, false⟩
  else
    match getReviewKV useKV readResult with
    | none => ⟨[RespondText.reviewNotFoundOrExpired], none, none, false⟩
    | some reviewData =>
      if hasCreator then
        let batch := createIssuesRun backend reviewData.linearIssues
        let upd : Option MsgUpdate :=
          match reviewData.messageTs, reviewData.channelId with
          | some ts, some ch => some ⟨ch, ts, "✅ Approved - Issues created in Linear"⟩
          | _, _ => none
        ⟨[RespondText.approvedCreated reviewData.linearIssues.length], some batch, upd, true⟩
      else ⟨[RespondText.linearNotConfigured], none, none, false⟩

/-- The `reject_issues` action handler (`src/services/slack/reviewer.ts`,
lines 160-202).  The lookup runs only when KV is enabled (so a disabled
store also lands in the null case); a null record responds "Review not
found or expired".  Otherwise it attempts the original-message update,
responds "Issue creation cancelled", and deletes the record.  No Linear
call is ever made. -/
def handleReject (useKV : Bool)
    (readResult : Except StoreReadError (Option ReviewRequestData)) :
    HandlerResult :=
  match getReviewKV useKV readResult with
  | none => ⟨[RespondText.reviewNotFoundOrExpired], none, none, false⟩
  | some reviewData =>
    let upd : Option MsgUpdate :=
      match reviewData.messageTs, reviewData.channelId with
      | some ts, some ch => some ⟨ch, ts, "❌ Rejected - Issues not created"⟩
      | _, _ => none
    ⟨[RespondText.issueCreationCancelled], none, upd, true⟩

/-- The durable review store: review id to stored record (the Vercel KV
keyspace under the `slack-review:` prefix). -/
abbrev Store := List (String × ReviewRequestData)

/-- Store lookup (`kv.get` on the review's key, reads that do not throw). -/
def storeGet : Store → String → Option ReviewRequestData
  | [], _ => none
  | p :: rest, k => if p.1 = k then some p.2 else storeGet rest k

/-- Store deletion (`kv.del` on the review's key). -/
def storeDel : Store → String → Store
  | [], _ => []
  | p :: rest, k => if p.1 = k then storeDel rest k else p :: storeDel rest k

/-- A user's button decision: which of the two action handlers fires. -/
inductive Decision
  | approve
  | reject
deriving DecidableEq

/-- One inbound user action: the review id carried in the button value,
the decision, and the tracker oracle in effect for this invocation. -/
structure UserAction where
  reviewId : String
  decision : Decision
  backend : Nat → Nat → Except JsError (Option String)

/-- Dispatch one user action against the current store (a store whose
reads succeed): run the matching handler on the looked-up record and apply
the handler's `deleteReviewKV` effect to the store. -/
def stepAction (useKV hasCreator : Bool) (s : Store) (a : UserAction) :
    Store × HandlerResult :=
  let res :=
    match a.decision with
    | Decision.approve =>
      handleApprove useKV hasCreator a.backend (Except.ok (storeGet s a.reviewId))
    | Decision.reject =>
      handleReject useKV (Except.ok (storeGet s a.reviewId))
  (if res.deleted then storeDel s a.reviewId else s, res)

/-- Run a sequence of user actions, threading the store, and record each
action's decision with its handler result. -/
def runActions (useKV hasCreator : Bool) :
    Store → List UserAction → Store × List (Decision × HandlerResult)
  | s, [] => (s, [])
  | s, a :: rest =>
    let step := stepAction useKV hasCreator s a
    let next := runActions useKV hasCreator step.1 rest
    (next.1, (a.decision, step.2) :: next.2)

/-- `SlackReviewer.getPriorityLabel` (`src/services/slack/reviewer.ts`,
lines 441-449): the four-tier priority label, defaulting to "No Priority"
for an absent, zero (falsy), or out-of-range priority. -/
def getPriorityLabel (priority : Option Nat) : String :=
  match priority with
  | some 1 => "🔴 High"
  | some 2 => "🟡 Medium"
  | some 3 => "🟢 Low"
  | some 4 => "⚪ No Priority"
  | _ => "⚪ No Priority"

/-- `SlackReviewer.truncateDescription` (`src/services/slack/reviewer.ts`,
lines 451-456): a description within the bound is returned unchanged;
otherwise its first `maxLength` characters with "..." appended.  The
source's default bound, used by the review renderer, is 200. -/
def truncateDescription (description : String) (maxLength : Nat) : String :=
  if description.length ≤ maxLength then description
  else description.take maxLength ++ "..."

/-- The part of an item's section text preceding the description
(`createReviewBlocks`, line 366): numbering and bolded title. -/
def itemHeader (index : Nat) (issue : LinearIssueInput) : String :=
  "*" ++ toString (index + 1) ++ ". " ++ issue.title ++ "*\n"

/-- The part of an item's section text following the description
(line 366): the priority label and the optional assignee line. -/
def itemFooter (issue : LinearIssueInput) : String :=
  "\n\n*Priority:* " ++ getPriorityLabel issue.priority ++
    (match issue.assigneeId with
     | some a => "\n*Assignee:* " ++ a
     | none => "")

/-- The full mrkdwn text of one issue's section in the review message
(`SlackReviewer.createReviewBlocks`, `src/services/slack/reviewer.ts`,
line 366): title line, truncated description, priority, optional
assignee. -/
def itemSectionText (index : Nat) (issue : LinearIssueInput) : String :=
  "*" ++ toString (index + 1) ++ ". " ++ issue.title ++ "*\n" ++
    truncateDescription issue.description 200 ++ "\n\n*Priority:* " ++
    getPriorityLabel issue.priority ++
    (match issue.assigneeId with
     | some a => "\n*Assignee:* " ++ a
     | none => "")

/-- The per-item section texts of the review message, one per Linear
payload in order (`createReviewBlocks`, lines 361-369). -/
def reviewItemTexts (linearIssues : List LinearIssueInput) : List String :=
  linearIssues.mapIdx itemSectionText

/-- Ascending list of `n` consecutive naturals starting at `s`, used to
index batch payloads in batch theorems. -/
def rangeFrom (s : Nat) : Nat → List Nat
  | 0 => []
  | n + 1 => s :: rangeFrom (s + 1) n

/-- A transient timeout error: classified retryable by the client's
classifier (message contains `timeout`). -/
def eTimeout : JsError :=
  ⟨"Request timeout", none, none⟩

/-- A connection-reset error as the Linear SDK surfaces it. -/
def eReset : JsError :=
  ⟨"read ECONNRESET", some "ECONNRESET", none⟩

/-- A server-side failure: HTTP 500 with a plain status message (no
timeout/reset wording). -/
def e500 : JsError :=
  ⟨"Request failed with status code 500", none, some 500⟩

/-- A client-side validation failure: HTTP 400. -/
def e400 : JsError :=
  ⟨"Invalid input: title is required", none, some 400⟩

/-- A concrete extracted action item for the demonstration review. -/
def demoItem : ActionItem :=
  ⟨"Follow up with ACME", "Send the revised quote to ACME by Friday", some "Jordan", "high", none⟩

/-- A concrete Linear payload (demonstration review, index 0). -/
def pA : LinearIssueInput :=
  ⟨"Follow up with ACME", "Send the revised quote to ACME by Friday", "team_1",
    some "proj_1", some "usr_1", some 1, none, none, none⟩

/-- A second concrete Linear payload (index 1 of the two-payload batch). -/
def pB : LinearIssueInput :=
  ⟨"Update pricing page", "Reflect the new tier names on the pricing page", "team_1",
    none, none, some 2, none, none, none⟩

/-- A stored review record with one item/payload and a posted message
reference. -/
def rd1 : ReviewRequestData :=
  ⟨[demoItem], [pA], 1700000000000, some "1712345678.000100", some "C0123456789"⟩

/-- A one-review store holding `rd1` under a generated review id. -/
def demoStore : Store :=
  [("review_1_abc", rd1)]

/-- A tracker oracle that succeeds on every payload at the first attempt
with issue id `LIN-1`. -/
def okBackend : Nat → Nat → Except JsError (Option String) :=
  fun _ _ => Except.ok (some "LIN-1")

/-- A tracker oracle that succeeds on every payload at the first attempt
with issue id `LIN-B`. -/
def okBackendB : Nat → Nat → Except JsError (Option String) :=
  fun _ _ => Except.ok (some "LIN-B")

/-- A tracker oracle that fails every attempt on every payload with the
retryable timeout error. -/
def allFailBackend : Nat → Nat → Except JsError (Option String) :=
  fun _ _ => Except.error eTimeout

/-- A tracker oracle whose payload 0 fails non-retryably (validation
error) while every other payload succeeds at the first attempt. -/
def oneFailBackend : Nat → Nat → Except JsError (Option String) :=
  fun i _ => if i = 0 then Except.error e400 else Except.ok (some "LIN-B")

/-- The demonstration approve click on the stored review, with a
succeeding tracker. -/
def demoApprove : UserAction :=
  ⟨"review_1_abc", Decision.approve, okBackend⟩

/-- The demonstration approve click with a tracker failing all retries. -/
def demoApproveFail : UserAction :=
  ⟨"review_1_abc", Decision.approve, allFailBackend⟩

/-- The demonstration reject click on the stored review. -/
def demoReject : UserAction :=
  ⟨"review_1_abc", Decision.reject, okBackend⟩

/-- A short description (within the 200-character bound). -/
def demoShortDesc : String :=
  "Send the revised quote to ACME by Friday"

/-- A long description: 250 repetitions of one character, beyond the
200-character bound. -/
def demoLongDesc : String :=
  String.mk (List.replicate 250 'x')

/-- The payload `pA` with the long description substituted, for exercising
truncation in the renderer. -/
def pLong : LinearIssueInput :=
  ⟨"Follow up with ACME", demoLongDesc, "team_1", some "proj_1", some "usr_1",
    some 1, none, none, none⟩

theorem rangeFrom_length : ∀ (n s : Nat), (rangeFrom s n).length = n := by
  intro n
  induction n with
  | zero => intro s; rfl
  | succ m ih => intro s; simp [rangeFrom, ih]

theorem sum_map_ones {α : Type} : ∀ (l : List α), (l.map (fun _ => (1 : Nat))).sum = l.length := by
  intro l
  induction l with
  | nil => rfl
  | cons a rest ih => simp [ih, Nat.add_comm]

theorem storeGet_storeDel_self (s : Store) (k : String) :
    storeGet (storeDel s k) k = none := by
  induction s with
  | nil => rfl
  | cons p rest ih =>
    by_cases h : p.1 = k
    · simp [storeDel, h, ih]
    · simp [storeDel, storeGet, h, ih]

theorem retryAux_first_ok {α : Type} (fn : Nat → Except JsError α) (p : JsError → Bool)
    (mult maxD attempt r delay : Nat) (le : Option JsError) (v : α)
    (h : fn attempt = Except.ok v) :
    retryAux fn p mult maxD attempt (r + 1) delay le = ⟨Except.ok v, 1, []⟩ := by
  simp [retryAux, h]

theorem retryAux_all_fail {α : Type} (fn : Nat → Except JsError α) (p : JsError → Bool)
    (mult maxD : Nat) (errOf : Nat → JsError)
    (hf : ∀ i, fn i = Except.error (errOf i)) (hp : ∀ i, p (errOf i) = true) :
    ∀ (r attempt delay : Nat) (le : Option JsError),
      retryAux fn p mult maxD attempt (r + 1) delay le =
        ⟨Except.error (some (errOf (attempt + r))), r + 1,
          backoffSleeps mult maxD delay r⟩ := by
  intro r
  induction r with
  | zero =>
    intro attempt delay le
    simp [retryAux, hf attempt, hp attempt, backoffSleeps]
  | succ n ih =>
    intro attempt delay le
    have hstep : retryAux fn p mult maxD attempt (n + 1 + 1) delay le =
        ⟨(retryAux fn p mult maxD (attempt + 1) (n + 1) (min (delay * mult) maxD)
            (some (errOf attempt))).outcome,
         (retryAux fn p mult maxD (attempt + 1) (n + 1) (min (delay * mult) maxD)
            (some (errOf attempt))).calls + 1,
         delay :: (retryAux fn p mult maxD (attempt + 1) (n + 1) (min (delay * mult) maxD)
            (some (errOf attempt))).sleeps⟩ := by
      rw [retryAux, hf attempt]
      simp [hp attempt]
    rw [hstep, ih (attempt + 1) (min (delay * mult) maxD) (some (errOf attempt))]
    have harith : attempt + 1 + n = attempt + (n + 1) := by omega
    rw [harith]
    simp [backoffSleeps]

theorem createIssueRun_first_ok (backend : Nat → Except JsError (Option String)) (id : String)
    (h : backend 1 = Except.ok (some id)) :
    createIssueRun backend = ⟨Except.ok id, 1, []⟩ := by
  have hr : retryRun backend clientRetryOptions = ⟨Except.ok (some id), 1, []⟩ := by
    show retryAux backend clientRetryable 2 5000 1 (2 + 1) 1000 none = _
    exact retryAux_first_ok backend clientRetryable 2 5000 1 2 1000 none (some id) h
  simp [createIssueRun, hr]

theorem createIssuesAux_trace_length (backend : Nat → Nat → Except JsError (Option String)) :
    ∀ (inputs : List LinearIssueInput) (idx : Nat),
      (createIssuesAux backend idx inputs).perItemTrace.length = inputs.length := by
  intro inputs
  induction inputs with
  | nil => intro idx; rfl
  | cons a rest ih =>
    intro idx
    cases h : (createIssueRun (backend idx)).outcome <;> simp [createIssuesAux, h, ih]

theorem createIssuesAux_all_ok (backend : Nat → Nat → Except JsError (Option String))
    (idOf : Nat → String) (hok : ∀ i, backend i 1 = Except.ok (some (idOf i))) :
    ∀ (inputs : List LinearIssueInput) (idx : Nat),
      createIssuesAux backend idx inputs =
        ⟨(rangeFrom idx inputs.length).map idOf,
         (rangeFrom idx inputs.length).map
           (fun j => ⟨Except.ok (idOf j), 1, []⟩)⟩ := by
  intro inputs
  induction inputs with
  | nil => intro idx; rfl
  | cons a rest ih =>
    intro idx
    have h1 := createIssueRun_first_ok (backend idx) (idOf idx) (hok idx)
    simp [createIssuesAux, h1, rangeFrom, ih]

theorem batchCalls_all_ok (backend : Nat → Nat → Except JsError (Option String))
    (idOf : Nat → String) (hok : ∀ i, backend i 1 = Except.ok (some (idOf i)))
    (inputs : List LinearIssueInput) :
    batchCalls (createIssuesRun backend inputs) = inputs.length := by
  have h := createIssuesAux_all_ok backend idOf hok inputs 0
  have htr : (createIssuesRun backend inputs).perItemTrace
      = (rangeFrom 0 inputs.length).map
          (fun j => (⟨Except.ok (idOf j), 1, []⟩ : CreateOneResult)) := by
    rw [createIssuesRun, h]
  rw [batchCalls, htr, List.map_map]
  have h2 : ((rangeFrom 0 inputs.length).map (fun _ => (1 : Nat))).sum = inputs.length := by
    rw [sum_map_ones, rangeFrom_length]
  exact h2

theorem createIssuesAux_one_fail_ids (backend : Nat → Nat → Except JsError (Option String))
    (k : Nat) (idOf : Nat → String) (ek : Option JsError)
    (hok : ∀ j, j ≠ k → backend j 1 = Except.ok (some (idOf j)))
    (hk : (createIssueRun (backend k)).outcome = Except.error ek) :
    ∀ (inputs : List LinearIssueInput) (idx : Nat),
      (createIssuesAux backend idx inputs).issueIds =
        ((rangeFrom idx inputs.length).filter (fun j => j != k)).map idOf := by
  intro inputs
  induction inputs with
  | nil => intro idx; rfl
  | cons a rest ih =>
    intro idx
    by_cases h : idx = k
    · subst h
      simp [createIssuesAux, hk, rangeFrom, List.filter, ih]
    · have h1 := createIssueRun_first_ok (backend idx) (idOf idx) (hok idx h)
      have hb : (idx != k) = true := by simp [h]
      simp [createIssuesAux, h1, rangeFrom, List.filter, hb, ih]

theorem rangeFrom_filter_ne_above (k : Nat) :
    ∀ (n s : Nat), k < s → (rangeFrom s n).filter (fun j => j != k) = rangeFrom s n := by
  intro n
  induction n with
  | zero => intro s _; rfl
  | succ m ih =>
    intro s hs
    have hb : (s != k) = true := by
      have hne : s ≠ k := by omega
      simp [hne]
    simp [rangeFrom, List.filter, hb, ih (s + 1) (by omega)]

theorem rangeFrom_filter_ne_length (k : Nat) :
    ∀ (n s : Nat), s ≤ k → k < s + n →
      ((rangeFrom s n).filter (fun j => j != k)).length = n - 1 := by
  intro n
  induction n with
  | zero => intro s h1 h2; omega
  | succ m ih =>
    intro s h1 h2
    by_cases h : s = k
    · subst h
      have habove := rangeFrom_filter_ne_above s m (s + 1) (by omega)
      simp [rangeFrom, List.filter, habove, rangeFrom_length]
    · have hlt : s < k := by omega
      have hrec := ih (s + 1) (by omega) (by omega)
      have hm : 1 ≤ m := by omega
      have hb : (s != k) = true := by simp [h]
      simp [rangeFrom, List.filter, hb, hrec]
      omega

theorem handleReject_batch_none (useKV : Bool)
    (readResult : Except StoreReadError (Option ReviewRequestData)) :
    (handleReject useKV readResult).batch = none := by
  cases h : getReviewKV useKV readResult <;> simp [handleReject, h]

theorem stepApprove_found (s : Store) (rid : String) (rd : ReviewRequestData)
    (backend : Nat → Nat → Except JsError (Option String))
    (hs : storeGet s rid = some rd) :
    stepAction true true s ⟨rid, Decision.approve, backend⟩ =
      (storeDel s rid,
       ⟨[RespondText.approvedCreated rd.linearIssues.length],
        some (createIssuesRun backend rd.linearIssues),
        (match rd.messageTs, rd.channelId with
         | some ts, some ch => some ⟨ch, ts, "✅ Approved - Issues created in Linear"⟩
         | _, _ => none),
        true⟩) := by
  simp [stepAction, handleApprove, getReviewKV, hs]

theorem stepReject_found (s : Store) (rid : String) (rd : ReviewRequestData)
    (backend : Nat → Nat → Except JsError (Option String))
    (hs : storeGet s rid = some rd) :
    stepAction true true s ⟨rid, Decision.reject, backend⟩ =
      (storeDel s rid,
       ⟨[RespondText.issueCreationCancelled],
        none,
        (match rd.messageTs, rd.channelId with
         | some ts, some ch => some ⟨ch, ts, "❌ Rejected - Issues not created"⟩
         | _, _ => none),
        true⟩) := by
  simp [stepAction, handleReject, getReviewKV, hs]

theorem stepAction_not_found (hasCreator : Bool) (s : Store) (rid : String)
    (d : Decision) (backend : Nat → Nat → Except JsError (Option String))
    (hs : storeGet s rid = none) :
    stepAction true hasCreator s ⟨rid, d, backend⟩ =
      (s, ⟨[RespondText.reviewNotFoundOrExpired], none, none, false⟩) := by
  cases d <;> simp [stepAction, handleApprove, handleReject, getReviewKV, hs]

theorem string_length_take (s : String) (n : Nat) :
    (s.take n).length = min n s.length := by
  show (s.take n).data.length = min n s.data.length
  rw [String.data_take]
  exact List.length_take n s.data

/-- C4, code-bug evaluation.  The claim (and the source's own comment
"Retry on network errors, timeouts, and 5xx errors", and the retry
utility's own default classifier) says server-side 5xx failures are
retried.  At the concrete 5xx error `e500` (status 500, plain status
message), `createIssue`'s classifier returns false — so the call is made
exactly once, no sleep happens, and the error is surfaced immediately —
while the default classifier of `src/utils/retry.ts` classifies the very
same error retryable.  Timeouts (`eTimeout`), resets (`eReset`) are
retried to the 3-attempt bound, and the 4xx validation error `e400` is
correctly never retried. -/
theorem claim_c4_5xx_not_retried_despite_comment :
    clientRetryable e500 = false ∧
    defaultRetryable e500 = true ∧
    (createIssueRun (fun _ => Except.error e500)).calls = 1 ∧
    (createIssueRun (fun _ => Except.error e500)).sleeps = [] ∧
    (createIssueRun (fun _ => Except.error e500)).outcome = Except.error (some e500) ∧
    clientRetryable e400 = false ∧
    (createIssueRun (fun _ => Except.error e400)).calls = 1 ∧
    (createIssueRun (fun _ => Except.error e400)).outcome = Except.error (some e400) ∧
    clientRetryable eTimeout = true ∧
    clientRetryable eReset = true ∧
    (createIssueRun (fun _ => Except.error eReset)).calls = 3 := by
  decide

/-- C5: when every attempt fails with a classified-retryable error,
`createIssue` invokes the tracker exactly `maxAttempts` times (the
configured and default bound, 3), sleeping between attempts following the
backoff sequence that starts at the initial delay and doubles with a cap
at the maximum delay — concretely 1000 ms then 2000 ms — and finally
surfaces the LAST attempt's error instead of succeeding. -/
theorem claim_c5_retry_bound (errOf : Nat → JsError)
    (hp : ∀ i, clientRetryable (errOf i) = true) :
    (createIssueRun (fun i => Except.error (errOf i))).calls = clientRetryOptions.maxAttempts ∧
    clientRetryOptions.maxAttempts = 3 ∧
    (createIssueRun (fun i => Except.error (errOf i))).sleeps =
      backoffSleeps clientRetryOptions.backoffMultiplier clientRetryOptions.maxDelayMs
        clientRetryOptions.initialDelayMs 2 ∧
    (createIssueRun (fun i => Except.error (errOf i))).sleeps = [1000, 2000] ∧
    (createIssueRun (fun i => Except.error (errOf i))).outcome =
      Except.error (some (errOf 3)) := by
  have hr : retryRun (fun i => (Except.error (errOf i) : Except JsError (Option String)))
      clientRetryOptions =
      ⟨Except.error (some (errOf 3)), 3, backoffSleeps 2 5000 1000 2⟩ := by
    show retryAux (fun i => (Except.error (errOf i) : Except JsError (Option String)))
      clientRetryable 2 5000 1 (2 + 1) 1000 none = _
    rw [retryAux_all_fail
      (fun i => (Except.error (errOf i) : Except JsError (Option String)))
      clientRetryable 2 5000 errOf (fun _ => rfl) hp 2 1 1000 none]
  have hc : createIssueRun (fun i => Except.error (errOf i)) =
      ⟨Except.error (some (errOf 3)), 3, backoffSleeps 2 5000 1000 2⟩ := by
    simp only [createIssueRun]
    rw [hr]
  refine ⟨?_, rfl, ?_, ?_, ?_⟩ <;> rw [hc] <;> try rfl

/-- C5 witness: the retry-bound theorem applied to the constant timeout
error. -/
theorem claim_c5_retry_bound_witness :
    (createIssueRun (fun _ => Except.error eTimeout)).calls = clientRetryOptions.maxAttempts ∧
    clientRetryOptions.maxAttempts = 3 ∧
    (createIssueRun (fun _ => Except.error eTimeout)).sleeps =
      backoffSleeps clientRetryOptions.backoffMultiplier clientRetryOptions.maxDelayMs
        clientRetryOptions.initialDelayMs 2 ∧
    (createIssueRun (fun _ => Except.error eTimeout)).sleeps = [1000, 2000] ∧
    (createIssueRun (fun _ => Except.error eTimeout)).outcome =
      Except.error (some eTimeout) := by
  refine claim_c5_retry_bound (fun _ => eTimeout) (fun i => ?_)
  show clientRetryable eTimeout = true
  decide

/-- C3 counterexample.  `createIssues` returns ONLY the list of created
issue ids — no structured per-item failure list.  Concretely: for the
two-payload batch whose index 0 fails non-retryably, the function's entire
return value equals its return value on the one-payload batch that never
contained the failing payload, so the caller receives no entry (index,
title, classified error) identifying the failure. -/
theorem claim_c3_counterexample :
    (createIssuesRun oneFailBackend [pA, pB]).issueIds = ["LIN-B"] ∧
    (createIssuesRun okBackendB [pB]).issueIds = ["LIN-B"] ∧
    (createIssuesRun oneFailBackend [pA, pB]).issueIds =
      (createIssuesRun okBackendB [pB]).issueIds := by
  decide

/-- C3 (amended): in a batch of N payloads where exactly index k fails
(and every other payload succeeds at its first attempt), `createIssues`
still attempts every payload (the per-item trace has one entry per
payload), and returns the N-1 successfully created ids, in order; the
failure is only logged — the returned value contains no per-item failure
report. -/
theorem claim_c3_partial_batch (backend : Nat → Nat → Except JsError (Option String))
    (inputs : List LinearIssueInput) (k : Nat) (idOf : Nat → String) (ek : Option JsError)
    (hklt : k < inputs.length)
    (hok : ∀ j, j ≠ k → backend j 1 = Except.ok (some (idOf j)))
    (hk : (createIssueRun (backend k)).outcome = Except.error ek) :
    (createIssuesRun backend inputs).perItemTrace.length = inputs.length ∧
    (createIssuesRun backend inputs).issueIds =
      ((rangeFrom 0 inputs.length).filter (fun j => j != k)).map idOf ∧
    (createIssuesRun backend inputs).issueIds.length = inputs.length - 1 := by
  refine ⟨createIssuesAux_trace_length backend inputs 0, ?_, ?_⟩
  · exact createIssuesAux_one_fail_ids backend k idOf ek hok hk inputs 0
  · have hid : (createIssuesRun backend inputs).issueIds =
        ((rangeFrom 0 inputs.length).filter (fun j => j != k)).map idOf :=
      createIssuesAux_one_fail_ids backend k idOf ek hok hk inputs 0
    rw [hid, List.length_map]
    exact rangeFrom_filter_ne_length k inputs.length 0 (Nat.zero_le k) (by omega)

/-- C3 witness: the partial-batch theorem applied to the concrete
two-payload batch whose index 0 fails with the 400 validation error. -/
theorem claim_c3_partial_batch_witness :
    (createIssuesRun oneFailBackend [pA, pB]).perItemTrace.length = 2 ∧
    (createIssuesRun oneFailBackend [pA, pB]).issueIds =
      ((rangeFrom 0 2).filter (fun j => j != 0)).map (fun _ => "LIN-B") ∧
    (createIssuesRun oneFailBackend [pA, pB]).issueIds.length = 1 :=
  claim_c3_partial_batch oneFailBackend [pA, pB] 0 (fun _ => "LIN-B") (some e400)
    (by decide) (fun j hj => by simp [oneFailBackend, hj]) (by decide)

/-- C6: when the durable-store lookup for the review id yields nothing
(missing key — including a record evicted by TTL expiry), either handler
responds exactly the "Review not found or expired" notice, makes no
create-backend call (no batch run), performs no message update, and
changes no state: the store is returned unchanged and no delete is
issued. -/
theorem claim_c6_not_found (hasCreator : Bool)
    (backend : Nat → Nat → Except JsError (Option String))
    (s : Store) (rid : String) (d : Decision)
    (hs : storeGet s rid = none) :
    stepAction true hasCreator s ⟨rid, d, backend⟩ =
      (s, ⟨[RespondText.reviewNotFoundOrExpired], none, none, false⟩) ∧
    ((stepAction true hasCreator s ⟨rid, d, backend⟩).2.responds.map RespondText.text) =
      ["❌ Review not found or expired."] := by
  have h := stepAction_not_found hasCreator s rid d backend hs
  exact ⟨h, by rw [h]; rfl⟩

/-- C6 witness: the not-found theorem applied to the empty store and a
stale review id, for both decisions. -/
theorem claim_c6_not_found_witness :
    (stepAction true true [] ⟨"review_expired", Decision.approve, okBackend⟩ =
      ([], ⟨[RespondText.reviewNotFoundOrExpired], none, none, false⟩) ∧
     ((stepAction true true [] ⟨"review_expired", Decision.approve, okBackend⟩).2.responds.map
        RespondText.text) = ["❌ Review not found or expired."]) ∧
    (stepAction true true [] ⟨"review_expired", Decision.reject, okBackend⟩ =
      ([], ⟨[RespondText.reviewNotFoundOrExpired], none, none, false⟩) ∧
     ((stepAction true true [] ⟨"review_expired", Decision.reject, okBackend⟩).2.responds.map
        RespondText.text) = ["❌ Review not found or expired."]) :=
  ⟨claim_c6_not_found true okBackend [] "review_expired" Decision.approve rfl,
   claim_c6_not_found true okBackend [] "review_expired" Decision.reject rfl⟩

/-- C7: in any sequence of user actions run against any starting store, a
reject action never triggers the issue-creation backend: every step whose
decision is reject has no `createIssues` run in its trace (and hence no
create-backend invocation for any of the review's payloads). -/
theorem claim_c7_reject_never_creates (useKV hasCreator : Bool)
    (acts : List UserAction) (s : Store) :
    ∀ pr ∈ (runActions useKV hasCreator s acts).2,
      pr.1 = Decision.reject → pr.2.batch = none := by
  induction acts generalizing s with
  | nil =>
    intro pr h
    simp [runActions] at h
  | cons a rest ih =>
    intro pr hmem hdec
    simp only [runActions, List.mem_cons] at hmem
    rcases hmem with h1 | h2
    · subst h1
      simp only at hdec
      obtain ⟨ridA, dA, bkA⟩ := a
      simp only at hdec
      subst hdec
      simp only [stepAction]
      exact handleReject_batch_none useKV _
    · exact ih _ _ h2 hdec

/-- C7 witness: the theorem applied to a concrete two-action sequence
(reject then approve) on the demonstration store: the reject step's trace
shows no create run. -/
theorem claim_c7_reject_never_creates_witness :
    (Decision.reject,
      (⟨[RespondText.issueCreationCancelled], none,
        some ⟨"C0123456789", "1712345678.000100", "❌ Rejected - Issues not created"⟩,
        true⟩ : HandlerResult)) ∈
      (runActions true true demoStore [demoReject, demoApprove]).2 ∧
    (⟨[RespondText.issueCreationCancelled], none,
        some ⟨"C0123456789", "1712345678.000100", "❌ Rejected - Issues not created"⟩,
        true⟩ : HandlerResult).batch = none :=
  ⟨by decide,
   claim_c7_reject_never_creates true true [demoReject, demoApprove] demoStore
     (Decision.reject,
       ⟨[RespondText.issueCreationCancelled], none,
        some ⟨"C0123456789", "1712345678.000100", "❌ Rejected - Issues not created"⟩,
        true⟩)
     (by decide) rfl⟩

/-- C1 counterexample.  A first approve on the stored review succeeds and
deletes the record, so a second identical approve is answered with the
"Review not found or expired" notice — the NotFound outcome — and NOT an
already-processed notice (the source has no such response); the second
invocation runs no `createIssues` batch. -/
theorem claim_c1_counterexample :
    ((stepAction true true demoStore demoApprove).2.responds.map classify
        = [SpecOutcome.success]) ∧
    ((stepAction true true (stepAction true true demoStore demoApprove).1
        demoApprove).2.responds.map classify = [SpecOutcome.notFound]) ∧
    ((stepAction true true (stepAction true true demoStore demoApprove).1
        demoApprove).2.responds ≠ [RespondText.reviewNotFoundOrExpired] → False) ∧
    SpecOutcome.notFound ≠ SpecOutcome.alreadyProcessed ∧
    ((stepAction true true (stepAction true true demoStore demoApprove).1
        demoApprove).2.batch = none) := by
  decide

/-- C1 (amended): after a first `handleAction` that returns Success the
record is DELETED, so a second identical call (same review id, same
decision) returns NotFound — rendered "Review not found or expired" — and
still causes no state change and no additional create call; across the two
invocations exactly one create call is issued per stored payload.  This
holds for approve (with a first-attempt-succeeding backend) and for
reject. -/
theorem claim_c1_idempotent_effects (s : Store) (rid : String) (rd : ReviewRequestData)
    (backend : Nat → Nat → Except JsError (Option String)) (idOf : Nat → String)
    (hs : storeGet s rid = some rd)
    (hok : ∀ i, backend i 1 = Except.ok (some (idOf i))) :
    ((stepAction true true s ⟨rid, Decision.approve, backend⟩).2.responds.map classify
        = [SpecOutcome.success]) ∧
    ((stepAction true true s ⟨rid, Decision.approve, backend⟩).2.batch.map batchCalls
        = some rd.linearIssues.length) ∧
    ((stepAction true true s ⟨rid, Decision.approve, backend⟩).1 = storeDel s rid) ∧
    (stepAction true true (stepAction true true s ⟨rid, Decision.approve, backend⟩).1
        ⟨rid, Decision.approve, backend⟩
      = ((stepAction true true s ⟨rid, Decision.approve, backend⟩).1,
         ⟨[RespondText.reviewNotFoundOrExpired], none, none, false⟩)) ∧
    ((stepAction true true s ⟨rid, Decision.reject, backend⟩).2.responds.map classify
        = [SpecOutcome.success]) ∧
    ((stepAction true true s ⟨rid, Decision.reject, backend⟩).2.batch = none) ∧
    (stepAction true true (stepAction true true s ⟨rid, Decision.reject, backend⟩).1
        ⟨rid, Decision.reject, backend⟩
      = ((stepAction true true s ⟨rid, Decision.reject, backend⟩).1,
         ⟨[RespondText.reviewNotFoundOrExpired], none, none, false⟩)) := by
  have ha := stepApprove_found s rid rd backend hs
  have hrj := stepReject_found s rid rd backend hs
  have hdel : storeGet (storeDel s rid) rid = none := storeGet_storeDel_self s rid
  have h2a := stepAction_not_found true (storeDel s rid) rid Decision.approve backend hdel
  have h2r := stepAction_not_found true (storeDel s rid) rid Decision.reject backend hdel
  refine ⟨?_, ?_, ?_, ?_, ?_, ?_, ?_⟩
  · rw [ha]; rfl
  · rw [ha]
    show some (batchCalls (createIssuesRun backend rd.linearIssues))
        = some rd.linearIssues.length
    rw [batchCalls_all_ok backend idOf hok rd.linearIssues]
  · rw [ha]
  · rw [ha]; exact h2a
  · rw [hrj]; rfl
  · rw [hrj]
  · rw [hrj]; exact h2r

/-- C1 witness: the amended idempotency theorem applied to the
demonstration store, review and first-attempt-succeeding backend. -/
theorem claim_c1_idempotent_effects_witness :
    ((stepAction true true demoStore demoApprove).2.responds.map classify
        = [SpecOutcome.success]) ∧
    ((stepAction true true demoStore demoApprove).2.batch.map batchCalls
        = some rd1.linearIssues.length) ∧
    ((stepAction true true demoStore demoApprove).1 = storeDel demoStore "review_1_abc") ∧
    (stepAction true true (stepAction true true demoStore demoApprove).1 demoApprove
      = ((stepAction true true demoStore demoApprove).1,
         ⟨[RespondText.reviewNotFoundOrExpired], none, none, false⟩)) ∧
    ((stepAction true true demoStore demoReject).2.responds.map classify
        = [SpecOutcome.success]) ∧
    ((stepAction true true demoStore demoReject).2.batch = none) ∧
    (stepAction true true (stepAction true true demoStore demoReject).1 demoReject
      = ((stepAction true true demoStore demoReject).1,
         ⟨[RespondText.reviewNotFoundOrExpired], none, none, false⟩)) :=
  claim_c1_idempotent_effects demoStore "review_1_abc" rd1 okBackend (fun _ => "LIN-1")
    rfl (fun _ => rfl)

/-- C2, code-bug evaluation.  A review whose single payload fails ALL
retry attempts (retryable timeout each time, 3 tracker calls) is
nonetheless reported "✅ Approved! Created 1 issue(s) in Linear..." — a
Success outcome, not ApprovalFailed — with zero issues actually created;
the record is deleted rather than kept Pending, so the user's subsequent
approve with a now-succeeding backend gets "Review not found or expired"
instead of Success.  (The handler's own error branch, which would answer
"Error creating issues in Linear. Please try again." and keep the record,
is unreachable for backend failures because `createIssues` catches every
per-item error.) -/
theorem claim_c2_code_divergence :
    ((stepAction true true demoStore demoApproveFail).2.responds
        = [RespondText.approvedCreated 1]) ∧
    ((stepAction true true demoStore demoApproveFail).2.responds.map classify
        = [SpecOutcome.success]) ∧
    ((stepAction true true demoStore demoApproveFail).2.batch.map (fun b => b.issueIds)
        = some []) ∧
    ((stepAction true true demoStore demoApproveFail).2.batch.map batchCalls = some 3) ∧
    ((stepAction true true demoStore demoApproveFail).2.deleted = true) ∧
    ((stepAction true true demoStore demoApproveFail).1 = []) ∧
    ((stepAction true true [] demoApprove).2.responds
        = [RespondText.reviewNotFoundOrExpired]) ∧
    SpecOutcome.success ≠ SpecOutcome.approvalFailed := by
  decide

/-- C9: whenever the approve handler finds the review (KV enabled, Linear
creator configured), and REGARDLESS of how the backend behaves — `createIssues`
never throws — the handler responds success with the STORED payload count
(`Created N issue(s)`, the requested count, not the achieved count),
attempts every payload exactly once through the batch (one trace entry per
payload), updates the original message to the Approved rendering when the
message reference is present, and deletes the review record. -/
theorem claim_c9_approve_reports_requested_count (s : Store) (rid : String)
    (rd : ReviewRequestData) (backend : Nat → Nat → Except JsError (Option String))
    (hs : storeGet s rid = some rd) :
    ((stepAction true true s ⟨rid, Decision.approve, backend⟩).2.responds
        = [RespondText.approvedCreated rd.linearIssues.length]) ∧
    ((stepAction true true s ⟨rid, Decision.approve, backend⟩).2.responds.map RespondText.text
        = ["✅ Approved! Created " ++ toString rd.linearIssues.length ++
            " issue(s) in Linear..."]) ∧
    ((stepAction true true s ⟨rid, Decision.approve, backend⟩).2.batch.map
        (fun b => b.perItemTrace.length) = some rd.linearIssues.length) ∧
    ((stepAction true true s ⟨rid, Decision.approve, backend⟩).2.deleted = true) ∧
    ((stepAction true true s ⟨rid, Decision.approve, backend⟩).1 = storeDel s rid) ∧
    (∀ ts ch, rd.messageTs = some ts → rd.channelId = some ch →
      (stepAction true true s ⟨rid, Decision.approve, backend⟩).2.msgUpdate
        = some ⟨ch, ts, "✅ Approved - Issues created in Linear"⟩) := by
  have ha := stepApprove_found s rid rd backend hs
  refine ⟨?_, ?_, ?_, ?_, ?_, ?_⟩
  · rw [ha]
  · rw [ha]; rfl
  · rw [ha]
    show some ((createIssuesAux backend 0 rd.linearIssues).perItemTrace.length)
        = some rd.linearIssues.length
    rw [createIssuesAux_trace_length backend rd.linearIssues 0]
  · rw [ha]
  · rw [ha]
  · intro ts ch hts hch
    rw [ha]
    simp [hts, hch]

/-- C9 witness: the theorem applied with the all-failing backend — the
response still claims the one stored issue was created while the batch
created none. -/
theorem claim_c9_approve_reports_requested_count_witness :
    ((stepAction true true demoStore demoApproveFail).2.responds
        = [RespondText.approvedCreated rd1.linearIssues.length]) ∧
    ((stepAction true true demoStore demoApproveFail).2.responds.map RespondText.text
        = ["✅ Approved! Created " ++ toString rd1.linearIssues.length ++
            " issue(s) in Linear..."]) ∧
    ((stepAction true true demoStore demoApproveFail).2.batch.map
        (fun b => b.perItemTrace.length) = some rd1.linearIssues.length) ∧
    ((stepAction true true demoStore demoApproveFail).2.deleted = true) ∧
    ((stepAction true true demoStore demoApproveFail).1 = storeDel demoStore "review_1_abc") ∧
    ((stepAction true true demoStore demoApproveFail).2.msgUpdate
        = some ⟨"C0123456789", "1712345678.000100", "✅ Approved - Issues created in Linear"⟩) :=
  ⟨(claim_c9_approve_reports_requested_count demoStore "review_1_abc" rd1 allFailBackend rfl).1,
   (claim_c9_approve_reports_requested_count demoStore "review_1_abc" rd1 allFailBackend rfl).2.1,
   (claim_c9_approve_reports_requested_count demoStore "review_1_abc" rd1 allFailBackend rfl).2.2.1,
   (claim_c9_approve_reports_requested_count demoStore "review_1_abc" rd1 allFailBackend rfl).2.2.2.1,
   (claim_c9_approve_reports_requested_count demoStore "review_1_abc" rd1 allFailBackend rfl).2.2.2.2.1,
   (claim_c9_approve_reports_requested_count demoStore "review_1_abc" rd1 allFailBackend rfl).2.2.2.2.2
     "1712345678.000100" "C0123456789" rfl rfl⟩

/-- C10 counterexample.  With the KV store disabled the approve handler
responds "❌ In-memory storage not available. Use KV for serverless
deployment." — a different message from "Review not found or expired" —
even though `getReviewKV` does return null; so the claim's "same message
for every action callback" fails on the approve handler. -/
theorem claim_c10_counterexample :
    handleApprove false true okBackend (Except.ok (some rd1))
      = ⟨[RespondText.inMemoryUnavailable], none, none, false⟩ ∧
    getReviewKV false (Except.ok (some rd1)) = none ∧
    RespondText.inMemoryUnavailable.text ≠ RespondText.reviewNotFoundOrExpired.text ∧
    (handleApprove false true okBackend (Except.ok (some rd1))).responds
      ≠ [RespondText.reviewNotFoundOrExpired] := by
  decide

/-- C10 (amended): `getReviewKV` returns null whenever the KV store is
disabled or the read throws (connectivity or parse failure).  With KV
ENABLED, a throwing read makes both handlers answer exactly as for a
genuinely missing or expired record — the identical "Review not found or
expired" response, never a distinct persistence-failure outcome.  With KV
DISABLED, the reject handler also answers "Review not found or expired",
but the approve handler instead answers the distinct in-memory-storage
notice before any lookup. -/
theorem claim_c10_store_failure_folded_to_not_found :
    (∀ r, getReviewKV false r = none) ∧
    (∀ e, getReviewKV true (Except.error e) = none) ∧
    (∀ (hasCreator : Bool) (backend : Nat → Nat → Except JsError (Option String))
        (e : StoreReadError),
      handleApprove true hasCreator backend (Except.error e)
        = ⟨[RespondText.reviewNotFoundOrExpired], none, none, false⟩ ∧
      handleApprove true hasCreator backend (Except.error e)
        = handleApprove true hasCreator backend (Except.ok none)) ∧
    (∀ e : StoreReadError,
      handleReject true (Except.error e)
        = ⟨[RespondText.reviewNotFoundOrExpired], none, none, false⟩ ∧
      handleReject true (Except.error e) = handleReject true (Except.ok none)) ∧
    (∀ (hasCreator : Bool) (backend : Nat → Nat → Except JsError (Option String)) r,
      handleApprove false hasCreator backend r
        = ⟨[RespondText.inMemoryUnavailable], none, none, false⟩) ∧
    (∀ r, handleReject false r
        = ⟨[RespondText.reviewNotFoundOrExpired], none, none, false⟩) :=
  ⟨fun _ => rfl, fun _ => rfl, fun _ _ _ => ⟨rfl, rfl⟩, fun _ => ⟨rfl, rfl⟩,
   fun _ _ _ => rfl, fun _ => rfl⟩

/-- C8: in the review message, each payload's section renders the
description through `truncateDescription` with the 200-character bound: a
description of at most 200 characters appears unchanged, and a longer one
is rendered as exactly its first 200 characters followed by the "..."
marker (total length 203). -/
theorem claim_c8_description_truncation (li : LinearIssueInput) (i : Nat) :
    itemSectionText i li
      = itemHeader i li ++ truncateDescription li.description 200 ++ itemFooter li ∧
    (li.description.length ≤ 200 → truncateDescription li.description 200 = li.description) ∧
    (200 < li.description.length →
      truncateDescription li.description 200 = li.description.take 200 ++ "..." ∧
      (truncateDescription li.description 200).length = 203) := by
  refine ⟨?_, ?_, ?_⟩
  · simp [itemSectionText, itemHeader, itemFooter, String.append_assoc]
  · intro h
    simp [truncateDescription, h]
  · intro h
    have hnot : ¬ li.description.length ≤ 200 := by omega
    have htr : truncateDescription li.description 200
        = li.description.take 200 ++ "..." := by
      simp [truncateDescription, hnot]
    refine ⟨htr, ?_⟩
    rw [htr, String.length_append, string_length_take]
    have h3 : ("..." : String).length = 3 := rfl
    rw [h3]
    omega

/-- C8 witness: the truncation theorem applied to the 40-character demo
description (unchanged) and to the 250-character description (first 200
characters plus the marker, 203 characters in total). -/
theorem claim_c8_description_truncation_witness :
    truncateDescription demoShortDesc 200 = demoShortDesc ∧
    truncateDescription demoLongDesc 200 = demoLongDesc.take 200 ++ "..." ∧
    (truncateDescription demoLongDesc 200).length = 203 :=
  ⟨(claim_c8_description_truncation pA 0).2.1 (by decide),
   ((claim_c8_description_truncation pLong 0).2.2 (by decide)).1,
   ((claim_c8_description_truncation pLong 0).2.2 (by decide)).2⟩
